import Mathlib

/-!
Verification of the two CLI pipelines in `degen-ai`:
`supabase/functions/crewai-vision/vision_tool_runner.py` and
`supabase/functions/crewai-web-scrape/scrape_tool_runner.py`.

Each Python script is embedded shallowly as a pure Lean function from the
full process argument vector (`sys.argv`, program name at index 0) and a
stub orchestration runtime (`kickoff : Crew → Except String String`) to a
`RunOutcome` trace recording the text written to the standard streams, the
process exit code, and every framework object constructed (capability
bindings, agents, tasks, crews) together with every `kickoff` invocation.
`Except.error e` models `crew.kickoff()` raising an uncaught exception:
CPython then terminates the process with exit status 1 and writes the
traceback (an error indication) to stderr, so nothing further in `main`
runs.
-/

namespace DegenAI

/-- Whitespace test used by Python's `str.strip()` (ASCII whitespace set). -/
def pyIsSpace (c : Char) : Bool :=
  c = '\x20' || c = '\x09' || c = '\x0a' || c = '\x0d' || c = '\x0b' || c = '\x0c'

/-- Embedding of Python's `str.strip()`: drop leading and trailing whitespace. -/
def pyStrip (s : String) : String :=
  String.mk (((s.data.dropWhile pyIsSpace).reverse.dropWhile pyIsSpace).reverse)

/-- A configured capability tool, recorded as the constructor that was called
and the named construction-time arguments passed to it. -/
structure CapabilityBinding where
  kind : String
  args : List (String × String)
deriving DecidableEq

/-- The `Agent(...)` record constructed by either script. -/
structure Agent where
  role : String
  goal : String
  backstory : String
  tools : List CapabilityBinding
  verbose : Bool
deriving DecidableEq

/-- The `Task(...)` record constructed by either script.  The vision script
passes a `context` mapping; the scrape script passes none (empty list). -/
structure Task where
  description : String
  expected_output : String
  agent : Agent
  context : List (String × String)
deriving DecidableEq

/-- The `Crew(agents=..., tasks=...)` record. -/
structure Crew where
  agents : List Agent
  tasks : List Task
deriving DecidableEq

/-- Observable outcome of one process run: everything written to stdout and
stderr, the process exit code, and the trace of framework objects
constructed and orchestrator invocations made. -/
structure RunOutcome where
  stdout : String
  stderr : String
  exitCode : Nat
  bindings : List CapabilityBinding
  agents : List Agent
  tasks : List Task
  crews : List Crew
  kickoffs : List Crew
deriving DecidableEq

/-- The tool built at `vision_tool = VisionTool()` — note: no construction
arguments are passed. -/
def visionTool : CapabilityBinding :=
  { kind := "VisionTool", args := [] }

/-- The agent built by `vision_tool_runner.py` (lines 14-20). -/
def visionAgent : Agent :=
  { role := "OCR Agent",
    goal := "Extract text from images accurately",
    backstory :=
      "Expert in reading and extracting text from image files using computer vision.",
    tools := [visionTool],
    verbose := false }

/-- The task built by `vision_tool_runner.py` (lines 22-27); the f-string
description and the context both interpolate `image_path`. -/
def visionTask (image_path : String) : Task :=
  { description :=
      "Extract all readable text from the image at \x27" ++ image_path ++ "\x27.",
    expected_output := "Text extracted from the image.",
    agent := visionAgent,
    context := [("image_path_url", image_path)] }

/-- The crew built at `Crew(agents=[agent], tasks=[task])` in the vision
script. -/
def visionCrew (image_path : String) : Crew :=
  { agents := [visionAgent], tasks := [visionTask image_path] }

/-- Embedding of `main` in `vision_tool_runner.py`.  `argv` is the full
`sys.argv` (program name at index 0). -/
def visionMain (argv : List String) (kickoff : Crew → Except String String) :
    RunOutcome :=
  if argv.length < 2 then
    { stdout := "Usage: python vision_tool_runner.py <image_path_or_url>\n",
      stderr := "", exitCode := 1,
      bindings := [], agents := [], tasks := [], crews := [], kickoffs := [] }
  else
    let image_path := argv.getD 1 ""
    match kickoff (visionCrew image_path) with
    | Except.error e =>
        { stdout := "", stderr := e, exitCode := 1,
          bindings := [visionTool], agents := [visionAgent],
          tasks := [visionTask image_path], crews := [visionCrew image_path],
          kickoffs := [visionCrew image_path] }
    | Except.ok result =>
        { stdout := pyStrip result ++ "\n", stderr := "", exitCode := 0,
          bindings := [visionTool], agents := [visionAgent],
          tasks := [visionTask image_path], crews := [visionCrew image_path],
          kickoffs := [visionCrew image_path] }

/-- The tool built by `scrape_tool_runner.py` (lines 14-17): both CLI
parameters are passed through as named construction arguments, unchanged. -/
def scrapeTool (url css_selector : String) : CapabilityBinding :=
  { kind := "ScrapeElementFromWebsiteTool",
    args := [("website_url", url), ("css_element", css_selector)] }

/-- The agent built by `scrape_tool_runner.py` (lines 19-25); its goal is an
f-string interpolating both CLI parameters. -/
def scrapeAgent (url css_selector : String) : Agent :=
  { role := "Web Extractor",
    goal := "Extract content from " ++ url ++ " using selector " ++ css_selector,
    backstory :=
      "Expert at extracting specific elements from websites using CSS selectors.",
    tools := [scrapeTool url css_selector],
    verbose := false }

/-- The task built by `scrape_tool_runner.py` (lines 27-31); no context
mapping is passed. -/
def scrapeTask (url css_selector : String) : Task :=
  { description :=
      "Extract content from " ++ url ++ " using CSS selector \x27" ++
        css_selector ++ "\x27.",
    expected_output := "Plain text content of the matching elements.",
    agent := scrapeAgent url css_selector,
    context := [] }

/-- The crew built at `Crew(agents=[agent], tasks=[task])` in the scrape
script. -/
def scrapeCrew (url css_selector : String) : Crew :=
  { agents := [scrapeAgent url css_selector],
    tasks := [scrapeTask url css_selector] }

/-- Embedding of `main` in `scrape_tool_runner.py`, with the same conventions
as `visionMain`. -/
def scrapeMain (argv : List String) (kickoff : Crew → Except String String) :
    RunOutcome :=
  if argv.length < 3 then
    { stdout := "Usage: python scrape_tool_runner.py <url> <css_selector>\n",
      stderr := "", exitCode := 1,
      bindings := [], agents := [], tasks := [], crews := [], kickoffs := [] }
  else
    let url := argv.getD 1 ""
    let css_selector := argv.getD 2 ""
    match kickoff (scrapeCrew url css_selector) with
    | Except.error e =>
        { stdout := "", stderr := e, exitCode := 1,
          bindings := [scrapeTool url css_selector],
          agents := [scrapeAgent url css_selector],
          tasks := [scrapeTask url css_selector],
          crews := [scrapeCrew url css_selector],
          kickoffs := [scrapeCrew url css_selector] }
    | Except.ok result =>
        { stdout := pyStrip result ++ "\n", stderr := "", exitCode := 0,
          bindings := [scrapeTool url css_selector],
          agents := [scrapeAgent url css_selector],
          tasks := [scrapeTask url css_selector],
          crews := [scrapeCrew url css_selector],
          kickoffs := [scrapeCrew url css_selector] }

/-- A stub orchestration runtime that always succeeds with a fixed result. -/
def stubOk : Crew → Except String String := fun _ => Except.ok "ok"

/-- Unfolding lemma: a vision run with at least one positional argument is the
post-parse branch applied to that first positional argument. -/
lemma visionMain_cons (a0 loc : String) (rest : List String)
    (k : Crew → Except String String) :
    visionMain (a0 :: loc :: rest) k =
      match k (visionCrew loc) with
      | Except.error e =>
          { stdout := "", stderr := e, exitCode := 1,
            bindings := [visionTool], agents := [visionAgent],
            tasks := [visionTask loc], crews := [visionCrew loc],
            kickoffs := [visionCrew loc] }
      | Except.ok result =>
          { stdout := pyStrip result ++ "\n", stderr := "", exitCode := 0,
            bindings := [visionTool], agents := [visionAgent],
            tasks := [visionTask loc], crews := [visionCrew loc],
            kickoffs := [visionCrew loc] } := by
  unfold visionMain
  rw [if_neg (by simp only [List.length_cons]; omega)]
  rfl

/-- Unfolding lemma: a scrape run with at least two positional arguments is
the post-parse branch applied to those two positional arguments. -/
lemma scrapeMain_cons (a0 url css : String) (rest : List String)
    (k : Crew → Except String String) :
    scrapeMain (a0 :: url :: css :: rest) k =
      match k (scrapeCrew url css) with
      | Except.error e =>
          { stdout := "", stderr := e, exitCode := 1,
            bindings := [scrapeTool url css], agents := [scrapeAgent url css],
            tasks := [scrapeTask url css], crews := [scrapeCrew url css],
            kickoffs := [scrapeCrew url css] }
      | Except.ok result =>
          { stdout := pyStrip result ++ "\n", stderr := "", exitCode := 0,
            bindings := [scrapeTool url css], agents := [scrapeAgent url css],
            tasks := [scrapeTask url css], crews := [scrapeCrew url css],
            kickoffs := [scrapeCrew url css] } := by
  unfold scrapeMain
  rw [if_neg (by simp only [List.length_cons]; omega)]
  rfl

/-- Claim C1: for every process argument list with fewer positional arguments
than required (1 for the vision variant, 2 for the scrape variant), the
pipeline prints a usage message and exits non-zero, and no CapabilityBinding
is constructed and no Agent, Task or Crew construction and no kickoff
occurs. -/
theorem claim1_insufficient_args_guard
    (argv1 argv2 : List String) (k1 k2 : Crew → Except String String)
    (h1 : (argv1.drop 1).length < 1) (h2 : (argv2.drop 1).length < 2) :
    ((visionMain argv1 k1).stdout =
        "Usage: python vision_tool_runner.py <image_path_or_url>\n" ∧
      (visionMain argv1 k1).exitCode ≠ 0 ∧
      (visionMain argv1 k1).bindings = [] ∧ (visionMain argv1 k1).agents = [] ∧
      (visionMain argv1 k1).tasks = [] ∧ (visionMain argv1 k1).crews = [] ∧
      (visionMain argv1 k1).kickoffs = []) ∧
    ((scrapeMain argv2 k2).stdout =
        "Usage: python scrape_tool_runner.py <url> <css_selector>\n" ∧
      (scrapeMain argv2 k2).exitCode ≠ 0 ∧
      (scrapeMain argv2 k2).bindings = [] ∧ (scrapeMain argv2 k2).agents = [] ∧
      (scrapeMain argv2 k2).tasks = [] ∧ (scrapeMain argv2 k2).crews = [] ∧
      (scrapeMain argv2 k2).kickoffs = []) := by
  have hv : argv1.length < 2 := by rw [List.length_drop] at h1; omega
  have hs : argv2.length < 3 := by rw [List.length_drop] at h2; omega
  unfold visionMain scrapeMain
  rw [if_pos hv, if_pos hs]
  exact ⟨⟨rfl, by decide, rfl, rfl, rfl, rfl, rfl⟩,
    ⟨rfl, by decide, rfl, rfl, rfl, rfl, rfl⟩⟩

/-- Claim C1 witness: concrete insufficient-argument runs of both variants. -/
theorem claim1_witness :
    (((visionMain ["python"] stubOk).stdout =
        "Usage: python vision_tool_runner.py <image_path_or_url>\n" ∧
      (visionMain ["python"] stubOk).exitCode ≠ 0 ∧
      (visionMain ["python"] stubOk).bindings = [] ∧
      (visionMain ["python"] stubOk).agents = [] ∧
      (visionMain ["python"] stubOk).tasks = [] ∧
      (visionMain ["python"] stubOk).crews = [] ∧
      (visionMain ["python"] stubOk).kickoffs = []) ∧
    ((scrapeMain ["python", "https://example.com"] stubOk).stdout =
        "Usage: python scrape_tool_runner.py <url> <css_selector>\n" ∧
      (scrapeMain ["python", "https://example.com"] stubOk).exitCode ≠ 0 ∧
      (scrapeMain ["python", "https://example.com"] stubOk).bindings = [] ∧
      (scrapeMain ["python", "https://example.com"] stubOk).agents = [] ∧
      (scrapeMain ["python", "https://example.com"] stubOk).tasks = [] ∧
      (scrapeMain ["python", "https://example.com"] stubOk).crews = [] ∧
      (scrapeMain ["python", "https://example.com"] stubOk).kickoffs = [])) :=
  claim1_insufficient_args_guard ["python"] ["python", "https://example.com"]
    stubOk stubOk (by decide) (by decide)

/-- Claim C2 counterexample: on the valid vision invocation of Scenario A the
single constructed CapabilityBinding (`VisionTool()`) is built with an empty
named-argument list, so it is not configured with the supplied locator as a
named field. -/
theorem claim2_counterexample :
    (visionMain ["python", "https://example.com/image.png"] stubOk).bindings.length
        = 1 ∧
    ((visionMain ["python", "https://example.com/image.png"] stubOk).bindings.all
        (fun b => b.args.isEmpty)) = true := by
  decide

/-- Claim C2 amended: for every valid single-argument invocation of the vision
variant, exactly one CapabilityBinding is constructed, but it carries no
construction-time named fields (in particular not the locator); the locator is
instead carried by the single TaskDescriptor, whose instruction contains it
and whose context maps `image_path_url` to it; exactly one kickoff occurs. -/
theorem claim2_amended (a0 loc : String) (rest : List String)
    (k : Crew → Except String String) :
    (visionMain (a0 :: loc :: rest) k).bindings = [visionTool] ∧
    visionTool.args = [] ∧
    (visionMain (a0 :: loc :: rest) k).tasks = [visionTask loc] ∧
    (∃ pre post, (visionTask loc).description = pre ++ loc ++ post) ∧
    ("image_path_url", loc) ∈ (visionTask loc).context ∧
    (visionMain (a0 :: loc :: rest) k).kickoffs.length = 1 := by
  rw [visionMain_cons]
  cases k (visionCrew loc) with
  | error e =>
      exact ⟨rfl, rfl, rfl,
        ⟨"Extract all readable text from the image at \x27", "\x27.", rfl⟩,
        by simp [visionTask], rfl⟩
  | ok r =>
      exact ⟨rfl, rfl, rfl,
        ⟨"Extract all readable text from the image at \x27", "\x27.", rfl⟩,
        by simp [visionTask], rfl⟩

/-- Claim C3: for every valid two-argument invocation of the scrape variant,
the constructed CapabilityBinding carries the locator and the selector exactly
as supplied, as the named fields `website_url` and `css_element`, with no
transformation. -/
theorem claim3_binding_carries_params_unchanged (a0 url css : String)
    (rest : List String) (k : Crew → Except String String) :
    (scrapeMain (a0 :: url :: css :: rest) k).bindings =
      [{ kind := "ScrapeElementFromWebsiteTool",
         args := [("website_url", url), ("css_element", css)] }] := by
  rw [scrapeMain_cons]
  cases k (scrapeCrew url css) <;> rfl

/-- Claim C4: whenever the orchestrator returns a result text on a valid run,
either variant prints exactly that text stripped of leading and trailing
whitespace followed by one line break and exits 0; in particular the stripped
form of the result "  Hello World  \n" followed by the line break is exactly
"Hello World\n". -/
theorem claim4_result_printer (a0v loc a0s url css : String)
    (restv rests : List String) (kv ks : Crew → Except String String)
    (r1 r2 : String)
    (hv : kv (visionCrew loc) = Except.ok r1)
    (hs : ks (scrapeCrew url css) = Except.ok r2) :
    (visionMain (a0v :: loc :: restv) kv).stdout = pyStrip r1 ++ "\n" ∧
    (visionMain (a0v :: loc :: restv) kv).exitCode = 0 ∧
    (scrapeMain (a0s :: url :: css :: rests) ks).stdout = pyStrip r2 ++ "\n" ∧
    (scrapeMain (a0s :: url :: css :: rests) ks).exitCode = 0 ∧
    pyStrip "  Hello World  \n" ++ "\n" = "Hello World\n" := by
  rw [visionMain_cons, scrapeMain_cons, hv, hs]
  exact ⟨rfl, rfl, rfl, rfl, by decide⟩

/-- Claim C4 witness: with stub runtimes returning "  Hello World  \n", both
variants print exactly "Hello World\n" and exit 0. -/
theorem claim4_witness :
    (visionMain ["python", "img.png"]
        (fun _ => Except.ok "  Hello World  \n")).stdout =
      pyStrip "  Hello World  \n" ++ "\n" ∧
    (visionMain ["python", "img.png"]
        (fun _ => Except.ok "  Hello World  \n")).exitCode = 0 ∧
    (scrapeMain ["python", "https://example.com", "div.title"]
        (fun _ => Except.ok "  Hello World  \n")).stdout =
      pyStrip "  Hello World  \n" ++ "\n" ∧
    (scrapeMain ["python", "https://example.com", "div.title"]
        (fun _ => Except.ok "  Hello World  \n")).exitCode = 0 ∧
    pyStrip "  Hello World  \n" ++ "\n" = "Hello World\n" :=
  claim4_result_printer "python" "img.png" "python" "https://example.com"
    "div.title" [] [] (fun _ => Except.ok "  Hello World  \n")
    (fun _ => Except.ok "  Hello World  \n") "  Hello World  \n"
    "  Hello World  \n" rfl rfl

/-- Claim C5: on every valid invocation of either variant the single
TaskDescriptor's instruction text contains the supplied locator (and, in the
scrape variant, also the supplied selector), the TaskDescriptor sets an
expected-output description, and it assigns the single AgentDescriptor. -/
theorem claim5_task_descriptor (a0v loc a0s url css : String)
    (restv rests : List String) (kv ks : Crew → Except String String) :
    ((visionMain (a0v :: loc :: restv) kv).tasks = [visionTask loc] ∧
      (∃ pre post, (visionTask loc).description = pre ++ loc ++ post) ∧
      (visionTask loc).expected_output = "Text extracted from the image." ∧
      (visionTask loc).agent = visionAgent ∧
      (visionMain (a0v :: loc :: restv) kv).agents = [visionAgent]) ∧
    ((scrapeMain (a0s :: url :: css :: rests) ks).tasks = [scrapeTask url css] ∧
      (∃ a b c, (scrapeTask url css).description = a ++ url ++ b ++ css ++ c) ∧
      (scrapeTask url css).expected_output =
        "Plain text content of the matching elements." ∧
      (scrapeTask url css).agent = scrapeAgent url css ∧
      (scrapeMain (a0s :: url :: css :: rests) ks).agents =
        [scrapeAgent url css]) := by
  rw [visionMain_cons, scrapeMain_cons]
  refine ⟨⟨?_, ⟨"Extract all readable text from the image at \x27", "\x27.", rfl⟩,
      rfl, rfl, ?_⟩,
    ⟨?_, ⟨"Extract content from ", " using CSS selector \x27", "\x27.", rfl⟩,
      rfl, rfl, ?_⟩⟩
  · cases kv (visionCrew loc) <;> rfl
  · cases kv (visionCrew loc) <;> rfl
  · cases ks (scrapeCrew url css) <;> rfl
  · cases ks (scrapeCrew url css) <;> rfl

/-- Claim C6: on every valid invocation of either variant the assembled crew
consists of exactly one agent and exactly one task, and the task's assigned
agent is a member of the crew's agent list. -/
theorem claim6_crew_invariant (a0v loc a0s url css : String)
    (restv rests : List String) (kv ks : Crew → Except String String) :
    ((visionMain (a0v :: loc :: restv) kv).crews = [visionCrew loc] ∧
      (visionCrew loc).agents.length = 1 ∧
      (visionCrew loc).tasks.length = 1 ∧
      (visionCrew loc).tasks = [visionTask loc] ∧
      (visionTask loc).agent ∈ (visionCrew loc).agents) ∧
    ((scrapeMain (a0s :: url :: css :: rests) ks).crews = [scrapeCrew url css] ∧
      (scrapeCrew url css).agents.length = 1 ∧
      (scrapeCrew url css).tasks.length = 1 ∧
      (scrapeCrew url css).tasks = [scrapeTask url css] ∧
      (scrapeTask url css).agent ∈ (scrapeCrew url css).agents) := by
  rw [visionMain_cons, scrapeMain_cons]
  refine ⟨⟨?_, rfl, rfl, rfl, by simp [visionCrew, visionTask]⟩,
    ⟨?_, rfl, rfl, rfl, by simp [scrapeCrew, scrapeTask]⟩⟩
  · cases kv (visionCrew loc) <;> rfl
  · cases ks (scrapeCrew url css) <;> rfl

/-- Claim C7 counterexample: two valid scrape invocations that differ only in
the supplied locator construct agents with different goal strings, so the
scrape variant's agent goal is not static. -/
theorem claim7_counterexample :
    (scrapeMain ["python", "https://a.example", "div.x"] stubOk).agents.map
        Agent.goal ≠
      (scrapeMain ["python", "https://b.example", "div.x"] stubOk).agents.map
        Agent.goal := by
  decide

/-- Claim C7 amended: the constructed AgentDescriptor's role and backstory are
static in both variants, and the vision variant's goal is static; the scrape
variant's goal is not static — it interpolates the supplied locator and
selector. -/
theorem claim7_amended (a0v loc a0s url css : String)
    (restv rests : List String) (kv ks : Crew → Except String String) :
    ((visionMain (a0v :: loc :: restv) kv).agents = [visionAgent] ∧
      visionAgent.role = "OCR Agent" ∧
      visionAgent.goal = "Extract text from images accurately" ∧
      visionAgent.backstory =
        "Expert in reading and extracting text from image files using computer vision.") ∧
    ((scrapeMain (a0s :: url :: css :: rests) ks).agents =
        [scrapeAgent url css] ∧
      (scrapeAgent url css).role = "Web Extractor" ∧
      (scrapeAgent url css).backstory =
        "Expert at extracting specific elements from websites using CSS selectors." ∧
      (scrapeAgent url css).goal =
        "Extract content from " ++ url ++ " using selector " ++ css) := by
  rw [visionMain_cons, scrapeMain_cons]
  refine ⟨⟨?_, rfl, rfl, rfl⟩, ⟨?_, rfl, rfl, rfl⟩⟩
  · cases kv (visionCrew loc) <;> rfl
  · cases ks (scrapeCrew url css) <;> rfl

/-- Claim C8: on every valid invocation where the orchestrator's
run-to-completion call raises a fatal error, either variant exits with a
non-zero status, writes nothing to stdout (the result printer is never
reached) while stderr carries only the error indication, and invokes the
orchestrator exactly once. -/
theorem claim8_fatal_error (a0v loc a0s url css : String)
    (restv rests : List String) (kv ks : Crew → Except String String)
    (e1 e2 : String)
    (hv : kv (visionCrew loc) = Except.error e1)
    (hs : ks (scrapeCrew url css) = Except.error e2) :
    ((visionMain (a0v :: loc :: restv) kv).exitCode = 1 ∧
      (visionMain (a0v :: loc :: restv) kv).stdout = "" ∧
      (visionMain (a0v :: loc :: restv) kv).stderr = e1 ∧
      (visionMain (a0v :: loc :: restv) kv).kickoffs = [visionCrew loc]) ∧
    ((scrapeMain (a0s :: url :: css :: rests) ks).exitCode = 1 ∧
      (scrapeMain (a0s :: url :: css :: rests) ks).stdout = "" ∧
      (scrapeMain (a0s :: url :: css :: rests) ks).stderr = e2 ∧
      (scrapeMain (a0s :: url :: css :: rests) ks).kickoffs =
        [scrapeCrew url css]) := by
  rw [visionMain_cons, scrapeMain_cons, hv, hs]
  exact ⟨⟨rfl, rfl, rfl, rfl⟩, ⟨rfl, rfl, rfl, rfl⟩⟩

/-- Claim C8 witness: concrete failing stub runtimes for both variants. -/
theorem claim8_witness :
    (((visionMain ["python", "img.png"]
          (fun _ => Except.error "boom")).exitCode = 1 ∧
      (visionMain ["python", "img.png"]
          (fun _ => Except.error "boom")).stdout = "" ∧
      (visionMain ["python", "img.png"]
          (fun _ => Except.error "boom")).stderr = "boom" ∧
      (visionMain ["python", "img.png"]
          (fun _ => Except.error "boom")).kickoffs = [visionCrew "img.png"]) ∧
    ((scrapeMain ["python", "https://example.com", "div.title"]
          (fun _ => Except.error "net down")).exitCode = 1 ∧
      (scrapeMain ["python", "https://example.com", "div.title"]
          (fun _ => Except.error "net down")).stdout = "" ∧
      (scrapeMain ["python", "https://example.com", "div.title"]
          (fun _ => Except.error "net down")).stderr = "net down" ∧
      (scrapeMain ["python", "https://example.com", "div.title"]
          (fun _ => Except.error "net down")).kickoffs =
        [scrapeCrew "https://example.com" "div.title"])) :=
  claim8_fatal_error "python" "img.png" "python" "https://example.com"
    "div.title" [] [] (fun _ => Except.error "boom")
    (fun _ => Except.error "net down") "boom" "net down" rfl rfl

/-- Claim C9: two argument lists that meet the required positional count and
agree on the required positions produce identical outcomes under the same
orchestration runtime: the program name and any extra trailing arguments have
no effect on any constructed object or on the output. -/
theorem claim9_extra_args_ignored (a0 b0 loc : String) (r1 r2 : List String)
    (a0s b0s url css : String) (s1 s2 : List String)
    (kv ks : Crew → Except String String) :
    visionMain (a0 :: loc :: r1) kv = visionMain (b0 :: loc :: r2) kv ∧
    scrapeMain (a0s :: url :: css :: s1) ks =
      scrapeMain (b0s :: url :: css :: s2) ks := by
  rw [visionMain_cons, visionMain_cons, scrapeMain_cons, scrapeMain_cons]
  exact ⟨rfl, rfl⟩

/-- Claim C10: on every invocation with insufficient arguments, the usage
message goes to standard output (stderr stays empty), it is a single line,
and it is the only output written before the process exits. -/
theorem claim10_usage_on_stdout (argv1 argv2 : List String)
    (k1 k2 : Crew → Except String String)
    (h1 : (argv1.drop 1).length < 1) (h2 : (argv2.drop 1).length < 2) :
    ((visionMain argv1 k1).stdout =
        "Usage: python vision_tool_runner.py <image_path_or_url>\n" ∧
      (visionMain argv1 k1).stderr = "" ∧
      (visionMain argv1 k1).stdout.data.count '\x0a' = 1) ∧
    ((scrapeMain argv2 k2).stdout =
        "Usage: python scrape_tool_runner.py <url> <css_selector>\n" ∧
      (scrapeMain argv2 k2).stderr = "" ∧
      (scrapeMain argv2 k2).stdout.data.count '\x0a' = 1) := by
  have hv : argv1.length < 2 := by rw [List.length_drop] at h1; omega
  have hs : argv2.length < 3 := by rw [List.length_drop] at h2; omega
  unfold visionMain scrapeMain
  rw [if_pos hv, if_pos hs]
  exact ⟨⟨rfl, rfl, by decide⟩, ⟨rfl, rfl, by decide⟩⟩

/-- Claim C10 witness: concrete insufficient-argument runs of both variants
with the usage line on stdout only. -/
theorem claim10_witness :
    (((visionMain [] stubOk).stdout =
        "Usage: python vision_tool_runner.py <image_path_or_url>\n" ∧
      (visionMain [] stubOk).stderr = "" ∧
      (visionMain [] stubOk).stdout.data.count '\x0a' = 1) ∧
    ((scrapeMain ["python", "https://example.com"] stubOk).stdout =
        "Usage: python scrape_tool_runner.py <url> <css_selector>\n" ∧
      (scrapeMain ["python", "https://example.com"] stubOk).stderr = "" ∧
      (scrapeMain ["python", "https://example.com"] stubOk).stdout.data.count
          '\x0a' = 1)) :=
  claim10_usage_on_stdout [] ["python", "https://example.com"] stubOk stubOk
    (by decide) (by decide)

end DegenAI
